import Mathlib

/-!
Shallow embedding of `src/Backend/flaskapp.py` (Text-Summarization).

The repository is a single Flask handler around external libraries (nltk,
spaCy, a pretrained T5 model, pypdf, python-docx, pytesseract, werkzeug).
Those libraries are not part of the repository; they are modelled either as
abstract function parameters collected in the `Ext` structure (the loaded
T5 model, the spaCy POS tagger, the binary parsers and the OCR engine) or,
where the spec pins their behaviour, as concrete functions whose doc
comment starts with "Modelled from the spec".  Everything written in
`flaskapp.py` itself (extension checks, dispatch, counting, ranking,
reduction statistics, the response shapes) is translated directly.

String operations are implemented structurally over `String.data`
(`List Char`) so that every definition evaluates by kernel reduction.
-/

namespace FlaskApp

/-- Split a character list at every character satisfying `p` (the separator
characters are dropped; empty chunks are kept, mirroring `str.split(sep)` /
the chunking underlying the tokenizers). -/
def split_by (p : Char → Bool) : List Char → List (List Char)
  | [] => [[]]
  | c :: cs =>
    let r := split_by p cs
    if p c then [] :: r
    else
      match r with
      | [] => [[c]]
      | w :: ws => (c :: w) :: ws

/-- Drop leading and trailing whitespace (Python `str.strip()`). -/
def trim_chars (l : List Char) : List Char :=
  ((l.dropWhile Char.isWhitespace).reverse.dropWhile Char.isWhitespace).reverse

/-- Modelled from the spec: `nltk.word_tokenize` is an external library
routine; the spec describes it as splitting text into words and fixes
`count_sentences_words("One sentence.") = (1, 2)`, so words are modelled as
maximal whitespace-free chunks. -/
def word_tokenize (text : String) : List String :=
  ((split_by Char.isWhitespace text.data).map (fun w => String.mk w)).filter
    (fun w => w != "")

/-- Modelled from the spec: `nltk.sent_tokenize` is an external library
routine; the spec describes it as splitting text into sentences, modelled as
the non-empty chunks delimited by terminal punctuation. -/
def sent_tokenize (text : String) : List String :=
  ((split_by (fun c => c == '.' || c == '!' || c == '?') text.data).map
    (fun s => String.mk (trim_chars s))).filter (fun s => s != "")

/-- Python `str.lower()` on the extension strings used here. -/
def to_lower (s : String) : String := String.mk (s.data.map Char.toLower)

/-- Python `str.endswith(suffix)` (case-sensitive). -/
def ends_with (s suffix : String) : Bool :=
  suffix.data == s.data.drop (s.data.length - suffix.data.length)

/-- Python `filename.rsplit('.', 1)[1]`: the text after the last dot.  The
caller (`allowed_file`) only evaluates this when the filename contains a
dot, exactly as the Python short-circuit does. -/
def after_last_dot (s : String) : String :=
  String.mk ((s.data.reverse.takeWhile (fun c => c != '.')).reverse)

/-- Python `'.' in filename`. -/
def contains_char (s : String) (c : Char) : Bool := s.data.contains c

/-- Python `",".join(l)`. -/
def join_with (sep : String) : List String → String
  | [] => ""
  | [x] => x
  | x :: y :: xs => x ++ sep ++ join_with sep (y :: xs)

/-- `ALLOWED_EXTENSIONS = {'pdf', 'docx', 'txt', 'png', 'jpg', 'jpeg'}`. -/
def ALLOWED_EXTENSIONS : List String := ["pdf", "docx", "txt", "png", "jpg", "jpeg"]

/-- `allowed_file`: `'.' in filename and filename.rsplit('.', 1)[1].lower()
in ALLOWED_EXTENSIONS`. -/
def allowed_file (filename : String) : Bool :=
  contains_char filename '.' &&
    ALLOWED_EXTENSIONS.contains (to_lower (after_last_dot filename))

/-- Modelled from the spec: `werkzeug.utils.secure_filename` is an external
sanitizer ("sanitize filename"); it keeps ASCII alphanumerics, dot, dash and
underscore and is the identity on the plain filenames considered here.
Character case is preserved. -/
def secure_filename (filename : String) : String :=
  String.mk (filename.data.filter
    (fun c => c.isAlphanum || c == '.' || c == '-' || c == '_'))

/-- The fixed generation hyperparameters passed to `model.generate`. -/
structure GenParams where
  max_length : Nat
  min_length : Nat
  length_penalty : ℚ
  num_beams : Nat
  early_stopping : Bool

/-- The process-wide external state: the loaded T5 tokenizer and model, the
spaCy pipeline, and the binary parsers.  All are opaque deterministic
functions; the repository only orchestrates them. -/
structure Ext where
  /-- `tokenizer.encode(text, max_length, truncation=True)`. -/
  t5_encode : String → Nat → List Nat
  /-- `model.generate(input_ids, **params)` (deterministic beam search). -/
  t5_generate : List Nat → GenParams → List Nat
  /-- `tokenizer.decode(ids, skip_special_tokens=True)`. -/
  t5_decode : List Nat → String
  /-- `nlp(text)`: the spaCy doc as a list of (token text, POS tag) pairs. -/
  nlp : String → List (String × String)
  /-- `PdfReader(f).pages[i].extract_text()` for each page, in page order. -/
  pdf_pages : String → List String
  /-- `Document(f).paragraphs[i].text` for each paragraph, in order. -/
  docx_paragraphs : String → List String
  /-- `pytesseract.image_to_string(Image.open(f))`. -/
  image_ocr : String → String

/-- `extract_text_from_pdf`: concatenates per-page text, no separator. -/
def extract_text_from_pdf (E : Ext) (pdf_file : String) : String :=
  (E.pdf_pages pdf_file).foldl (fun text page => text ++ page) ""

/-- `extract_text_from_word_document`: each paragraph followed by `"\n"`. -/
def extract_text_from_word_document (E : Ext) (docx_file : String) : String :=
  (E.docx_paragraphs docx_file).foldl (fun text para => text ++ para ++ "\n") ""

/-- `extract_text_from_text_file`: the saved file is read verbatim, so the
extracted text is the uploaded content. -/
def extract_text_from_text_file (contents : String) : String := contents

/-- `extract_text_from_image`: whole-image OCR. -/
def extract_text_from_image (E : Ext) (image_file : String) : String :=
  E.image_ocr image_file

/-- `generate_summary(input_text, num_sentences)`: encodes
`"summarize: " + input_text` with `max_length=512, truncation=True`, then
generates with `max_length=150, min_length=40, length_penalty=2.0,
num_beams=4, early_stopping=True` and decodes.  The `num_sentences`
parameter does not occur in the body. -/
def generate_summary (E : Ext) (input_text : String) (num_sentences : Nat) : String :=
  let input_ids := E.t5_encode ("summarize: " ++ input_text) 512
  let summary_ids := E.t5_generate input_ids ⟨150, 40, 2, 4, true⟩
  E.t5_decode summary_ids

/-- `[token.text for token in doc if token.pos_ in ['NOUN', 'ADJ', 'VERB']]`. -/
def qualifying_keywords (E : Ext) (text : String) : List String :=
  ((E.nlp text).filter
    (fun token => token.2 == "NOUN" || token.2 == "ADJ" || token.2 == "VERB")).map
    Prod.fst

/-- The keys of `collections.Counter(l)` in insertion order, i.e. the
distinct elements of `l` ordered by first occurrence (Python dicts preserve
insertion order); `seen` accumulates the keys already emitted. -/
def counter_keys : List String → List String → List String
  | [], _ => []
  | x :: xs, seen =>
    if x ∈ seen then counter_keys xs seen else x :: counter_keys xs (x :: seen)

/-- One step of the stable descending-by-count ordering used by
`Counter.most_common`: `x` is placed before the first element of strictly
smaller count, hence after all earlier elements of equal count. -/
def insert_by_count (cnt : String → Nat) (x : String) : List String → List String
  | [] => [x]
  | y :: ys => if cnt y < cnt x then x :: y :: ys else y :: insert_by_count cnt x ys

/-- Stable sort of the counter keys by count, descending (ties keep the
insertion order of the keys, as Python's stable sort does). -/
def sort_by_count (cnt : String → Nat) (l : List String) : List String :=
  l.foldl (fun acc x => insert_by_count cnt x acc) []

/-- `Counter(l).most_common(n)`: the `n` highest-count (element, count)
pairs, counts descending, ties broken by insertion (= first occurrence)
order. -/
def most_common (l : List String) (n : Nat) : List (String × Nat) :=
  ((sort_by_count (fun k => l.count k) (counter_keys l [])).take n).map
    (fun k => (k, l.count k))

/-- `extract_keywords(text, num_keywords=5)`. -/
def extract_keywords (E : Ext) (text : String) (num_keywords : Nat := 5) :
    List String :=
  let keywords := qualifying_keywords E text
  let most_common_keywords := most_common keywords num_keywords
  most_common_keywords.map Prod.fst

/-- `count_sentences_words(text)`: returns
`(len(sent_tokenize(text)), len(word_tokenize(text)))`, i.e. the sentence
count FIRST and the word count SECOND. -/
def count_sentences_words (text : String) : Nat × Nat :=
  ((sent_tokenize text).length, (word_tokenize text).length)

/-- The dict returned by `summarize_input`. -/
structure SummaryResult where
  summary : String
  original_sentences : Nat
  original_words : Nat
  summarized_sentences : Nat
  summarized_words : Nat
  keywords : List String

/-- `summarize_input(input_text_or_file, num_sentences)` as invoked by the
handler: the argument is the extracted text, not an existing file path, so
`os.path.isfile` is false and the else-branch applies (the argument is used
as the text directly).  Note that this function unpacks
`count_sentences_words` in the correct `(sentences, words)` order. -/
def summarize_input (E : Ext) (input_text_or_file : String) (num_sentences : Nat) :
    SummaryResult :=
  let text := input_text_or_file
  let p := count_sentences_words text
  let summary := generate_summary E text num_sentences
  let q := count_sentences_words summary
  let keywords := extract_keywords E summary
  ⟨summary, p.1, p.2, q.1, q.2, keywords⟩

/-- A dynamically typed Python value as it flows into
`count_sentences_words` in the handler's keywords branch: either a text
string or the dict returned by `summarize_input`. -/
inductive PyValue where
  | str (s : String)
  | dict (d : SummaryResult)

/-- `count_sentences_words` as called on a dynamically typed argument:
`nltk.sent_tokenize` raises `TypeError` when handed a dict instead of a
string; the broad handler turns `str(e)` into the 400 body. -/
def count_sentences_words_dyn : PyValue → Except String (Nat × Nat)
  | .str s => .ok (count_sentences_words s)
  | .dict _ => .error "expected string or bytes-like object"

/-- A JSON leaf: string, number, or array of strings. -/
inductive JLeaf where
  | s (v : String)
  | n (v : ℚ)
  | strs (v : List String)
deriving DecidableEq

/-- A JSON value as used in the response bodies: a leaf or a flat object. -/
inductive JVal where
  | leaf (v : JLeaf)
  | obj (fields : List (String × JLeaf))
deriving DecidableEq

/-- An HTTP response: status code and JSON object body (field order as in
the source's dict literals). -/
structure Response where
  status : Nat
  body : List (String × JVal)
deriving DecidableEq

/-- The observable outcome of one POST request: the response, plus the file
written to the upload folder (if the handler reached `file.save`). -/
structure HandlerOutcome where
  response : Response
  saved : Option (String × String)
deriving DecidableEq

/-- `jsonify({'error': msg})`. -/
def errJson (msg : String) : List (String × JVal) := [("error", .leaf (.s msg))]

/-- Association-list lookup in a JSON object body. -/
def get_field (body : List (String × JVal)) (key : String) : Option JVal :=
  match body with
  | [] => none
  | (k, v) :: rest => if k == key then some v else get_field rest key

/-- Python `(orig - new) / orig * 100` on ints: true division producing a
float (modelled exactly as a rational), raising `ZeroDivisionError` (whose
`str` is `"division by zero"`) when the denominator is zero. -/
def percent_reduction (orig new : Nat) : Except String ℚ :=
  if orig = 0 then .error "division by zero"
  else .ok (((orig : ℚ) - (new : ℚ)) / (orig : ℚ) * 100)

/-- `jsonify` of the `summarize_input` dict. -/
def json_of_summary_result (d : SummaryResult) : JVal :=
  .obj [("summary", .s d.summary),
        ("original_sentences", .n d.original_sentences),
        ("original_words", .n d.original_words),
        ("summarized_sentences", .n d.summarized_sentences),
        ("summarized_words", .n d.summarized_words),
        ("keywords", .strs d.keywords)]

/-- One POST request to `/upload`: the multipart `file` field (presence,
client filename, content) and the query parameters.  `sent_number` is the
already-parsed `int(request.args.get('sent_number', 5))`. -/
structure UploadRequest where
  hasFilePart : Bool
  filename : String
  content : String
  qtype : Option String
  sent_number : Nat
  selected_keyword : Option String

/-- The `if filename.endswith(...)` extraction dispatch inside the `try`
block: case-sensitive suffix tests against the sanitized filename; `none`
means the `else` branch (the 415 response) fires. -/
def dispatch_extract (E : Ext) (filename content : String) : Option String :=
  if ends_with filename ".pdf" then some (extract_text_from_pdf E content)
  else if ends_with filename ".docx" then some (extract_text_from_word_document E content)
  else if ends_with filename ".txt" then some (extract_text_from_text_file content)
  else if ends_with filename ".png" || ends_with filename ".jpg" || ends_with filename ".jpeg" then
    some (extract_text_from_image E content)
  else none

/-- The body of the handler's `try:` block, for a saved file `filename`
with the request's content.  `Except.error e` models an uncaught Python
exception with message `e`, caught by the handler's broad `except`. -/
def try_block (E : Ext) (filename : String) (r : UploadRequest) :
    Except String Response :=
  match dispatch_extract E filename r.content with
  | none => .ok ⟨415, errJson "Unsupported file format"⟩
  | some extracted_text =>
    let counts := count_sentences_words extracted_text
    let num_word := counts.1
    let num_sent := counts.2
    let keywords := extract_keywords E extracted_text 5
    let result := join_with "," keywords
    let user := r.qtype
    let sent_number := r.sent_number
    if user = some "paragraph" then
      let summary := generate_summary E extracted_text sent_number
      let summary_counts := count_sentences_words summary
      let summary_num_word := summary_counts.1
      let summary_num_sent := summary_counts.2
      match percent_reduction num_word summary_num_word with
      | .error e => .error e
      | .ok reduction_word =>
        match percent_reduction num_sent summary_num_sent with
        | .error e => .error e
        | .ok reduction_sentence =>
          .ok ⟨200, [("text", .leaf (.s summary)),
                     ("Rnum_word", .leaf (.n summary_num_word)),
                     ("Rnum_sent", .leaf (.n summary_num_sent)),
                     ("statistics", .obj [("reduction_word", .n reduction_word),
                                          ("reduction_sentence", .n reduction_sentence)])]⟩
    else if user = some "keywords" then
      match r.selected_keyword with
      | some sks =>
        let _selected_keywords :=
          (split_by (fun c => c == ',') sks.data).map
            (fun k => String.mk (trim_chars k))
        let selected_keyword_summary := summarize_input E extracted_text sent_number
        match count_sentences_words_dyn (.dict selected_keyword_summary) with
        | .error e => .error e
        | .ok summary_text_counts =>
          let summary_text_words := summary_text_counts.1
          let summary_text_sentences := summary_text_counts.2
          match percent_reduction num_word summary_text_words with
          | .error e => .error e
          | .ok reduction_word =>
            match percent_reduction num_sent summary_text_sentences with
            | .error e => .error e
            | .ok reduction_sentence =>
              .ok ⟨200, [("keyword_summary", json_of_summary_result selected_keyword_summary),
                         ("num_word", .leaf (.n summary_text_words)),
                         ("num_sent", .leaf (.n summary_text_sentences)),
                         ("statistics", .obj [("reduction_word", .n reduction_word),
                                              ("reduction_sentence", .n reduction_sentence)])]⟩
      | none => .ok ⟨400, errJson "Invalid keywords"⟩
    else
      .ok ⟨200, [("text", .leaf (.s extracted_text)),
                 ("Lnum_word", .leaf (.n num_word)),
                 ("Lnum_sent", .leaf (.n num_sent)),
                 ("keywords", .leaf (.s result))]⟩

/-- `upload_file` on a POST request. -/
def upload_file (E : Ext) (r : UploadRequest) : HandlerOutcome :=
  if r.hasFilePart = false then ⟨⟨400, errJson "No file part"⟩, none⟩
  else if r.filename = "" then ⟨⟨400, errJson "No selected file"⟩, none⟩
  else if allowed_file r.filename = true then
    let filename := secure_filename r.filename
    let saved := some (filename, r.content)
    match try_block E filename r with
    | .ok resp => ⟨resp, saved⟩
    | .error e => ⟨⟨400, errJson e⟩, saved⟩
  else ⟨⟨400, errJson "Invalid file type"⟩, none⟩

/-- A concrete instantiation of the external state, used to evaluate the
handler on concrete requests: the model always generates the fixed summary
"It was a very good day.", the tagger tags nothing. -/
def ext0 : Ext where
  t5_encode := fun _ _ => []
  t5_generate := fun _ _ => []
  t5_decode := fun _ => "It was a very good day."
  nlp := fun _ => []
  pdf_pages := fun _ => []
  docx_paragraphs := fun _ => []
  image_ocr := fun _ => ""

/-- C3: `count_sentences_words` returns the pair (sentence count, word
count) in that order; on the empty string it returns (0, 0) and on
"One sentence." it returns (1, 2). -/
theorem count_sentences_words_spec :
    (∀ text, count_sentences_words text =
      ((sent_tokenize text).length, (word_tokenize text).length)) ∧
    count_sentences_words "" = (0, 0) ∧
    count_sentences_words "One sentence." = (1, 2) :=
  ⟨fun _ => rfl, by decide, by decide⟩

/-- C4: `generate_summary` ignores its sentence-count argument entirely:
for any two requested counts the summaries coincide, and the generation is
always invoked with the fixed bounds `max_length=150, min_length=40` (and
`length_penalty=2, num_beams=4, early_stopping=True`). -/
theorem generate_summary_ignores_num_sentences (E : Ext) (text : String)
    (n m : Nat) :
    generate_summary E text n = generate_summary E text m ∧
    generate_summary E text n =
      E.t5_decode (E.t5_generate (E.t5_encode ("summarize: " ++ text) 512)
        ⟨150, 40, 2, 4, true⟩) :=
  ⟨rfl, rfl⟩

/-- C7: `allowed_file` accepts both "a.PDF" and "a.pdf" (the extension is
lowercased before the allow-list membership test) and rejects "a.exe". -/
theorem allowed_file_cases :
    allowed_file "a.PDF" = true ∧ allowed_file "a.pdf" = true ∧
    allowed_file "a.exe" = false := by decide

/-- C1: evaluation of a `type=paragraph` upload of a .txt file with 4
sentences and 8 words whose generated summary has 1 sentence and 6 words.
The 200 body does contain the keys `text`, `Rnum_word`, `Rnum_sent` and
`statistics.reduction_word` / `statistics.reduction_sentence`, but because
`upload_file` unpacks `count_sentences_words` (which returns
(sentences, words)) as `num_word, num_sent`, `Rnum_word` is the summary's
SENTENCE count (1, not the word count 6), `Rnum_sent` is its WORD count,
`reduction_word` is the sentence reduction (4-1)/4*100 = 75 and
`reduction_sentence` the word reduction (8-6)/8*100 = 25 — the opposite of
the claim. -/
theorem paragraph_response_counts_swapped :
    ((upload_file ext0
        ⟨true, "a.txt", "Hello world. Nice day. Bye now. Go home.",
          some "paragraph", 2, none⟩).response.status = 200 ∧
     get_field (upload_file ext0
        ⟨true, "a.txt", "Hello world. Nice day. Bye now. Go home.",
          some "paragraph", 2, none⟩).response.body "text" =
        some (.leaf (.s "It was a very good day.")) ∧
     get_field (upload_file ext0
        ⟨true, "a.txt", "Hello world. Nice day. Bye now. Go home.",
          some "paragraph", 2, none⟩).response.body "Rnum_word" =
        some (.leaf (.n ((1 : Nat) : ℚ))) ∧
     get_field (upload_file ext0
        ⟨true, "a.txt", "Hello world. Nice day. Bye now. Go home.",
          some "paragraph", 2, none⟩).response.body "Rnum_sent" =
        some (.leaf (.n ((6 : Nat) : ℚ))) ∧
     get_field (upload_file ext0
        ⟨true, "a.txt", "Hello world. Nice day. Bye now. Go home.",
          some "paragraph", 2, none⟩).response.body "statistics" =
        some (.obj [("reduction_word",
                      .n ((((4 : Nat) : ℚ) - ((1 : Nat) : ℚ)) / ((4 : Nat) : ℚ) * 100)),
                    ("reduction_sentence",
                      .n ((((8 : Nat) : ℚ) - ((6 : Nat) : ℚ)) / ((8 : Nat) : ℚ) * 100))])) ∧
    (sent_tokenize "It was a very good day.").length = 1 ∧
    (word_tokenize "It was a very good day.").length = 6 ∧
    (sent_tokenize "Hello world. Nice day. Bye now. Go home.").length = 4 ∧
    (word_tokenize "Hello world. Nice day. Bye now. Go home.").length = 8 ∧
    (((4 : Nat) : ℚ) - ((1 : Nat) : ℚ)) / ((4 : Nat) : ℚ) * 100 = 75 ∧
    (((8 : Nat) : ℚ) - ((6 : Nat) : ℚ)) / ((8 : Nat) : ℚ) * 100 = 25 := by
  refine ⟨⟨rfl, rfl, rfl, rfl, rfl⟩, by decide, by decide, by decide, by decide,
    by norm_num, by norm_num⟩

/-- C2: evaluation of a `type=keywords` upload with `selected_keyword`
present: the handler passes the dict returned by `summarize_input` into
`count_sentences_words`, whose tokenizer raises `TypeError`; the broad
`except` turns this into a 400 with the raw exception text, so the claimed
200 keyword-summary payload is never produced. -/
theorem keywords_branch_type_error :
    (upload_file ext0
        ⟨true, "a.txt", "Hello world.", some "keywords", 5, some "day"⟩).response =
      ⟨400, errJson "expected string or bytes-like object"⟩ := by decide

/-- C9: a POST whose filename has an extension (a dot is present) outside
the allow-list is rejected by the `allowed_file` guard with
400 `{'error': 'Invalid file type'}` — not with the 415 "Unsupported file
format" response of the inner dispatch check. -/
theorem invalid_file_type_response (E : Ext) (r : UploadRequest)
    (h1 : r.hasFilePart = true) (h2 : r.filename ≠ "")
    (hdot : contains_char r.filename '.' = true)
    (hext : ALLOWED_EXTENSIONS.contains (to_lower (after_last_dot r.filename)) = false) :
    (upload_file E r).response = ⟨400, errJson "Invalid file type"⟩ ∧
    (upload_file E r).response.status ≠ 415 := by
  have hallowed : allowed_file r.filename = false := by
    rw [allowed_file, hext, Bool.and_false]
  constructor
  · simp [upload_file, h1, h2, hallowed]
  · simp [upload_file, h1, h2, hallowed]

/-- C9 witness: the "a.exe" upload from the spec's test list. -/
theorem invalid_file_type_response_witness :
    (upload_file ext0 ⟨true, "a.exe", "x", none, 5, none⟩).response =
      ⟨400, errJson "Invalid file type"⟩ ∧
    (upload_file ext0 ⟨true, "a.exe", "x", none, 5, none⟩).response.status ≠ 415 :=
  invalid_file_type_response ext0 ⟨true, "a.exe", "x", none, 5, none⟩
    rfl (by decide) (by decide) (by decide)

/-- C10: an allowed-list filename that matches none of the case-sensitive
`endswith` dispatch suffixes (e.g. an upper-case extension such as
"a.PDF") passes the `allowed_file` check, is saved to the upload folder,
and then receives 415 `{'error': 'Unsupported file format'}` instead of
having its text extracted. -/
theorem uppercase_extension_unsupported_format (E : Ext) (r : UploadRequest)
    (h1 : r.hasFilePart = true) (h2 : r.filename ≠ "")
    (h3 : allowed_file r.filename = true)
    (h4 : ∀ suf ∈ [".pdf", ".docx", ".txt", ".png", ".jpg", ".jpeg"],
      ends_with (secure_filename r.filename) suf = false) :
    upload_file E r =
      ⟨⟨415, errJson "Unsupported file format"⟩,
        some (secure_filename r.filename, r.content)⟩ := by
  have hd : dispatch_extract E (secure_filename r.filename) r.content = none := by
    have p1 := h4 ".pdf" (by simp)
    have p2 := h4 ".docx" (by simp)
    have p3 := h4 ".txt" (by simp)
    have p4 := h4 ".png" (by simp)
    have p5 := h4 ".jpg" (by simp)
    have p6 := h4 ".jpeg" (by simp)
    simp [dispatch_extract, p1, p2, p3, p4, p5, p6]
  simp [upload_file, h1, h2, h3, try_block, hd]

/-- C10 witness: "a.PDF" is accepted by `allowed_file`, saved, and then
answered with 415 instead of being extracted. -/
theorem uppercase_extension_unsupported_format_witness :
    upload_file ext0 ⟨true, "a.PDF", "x", none, 5, none⟩ =
      ⟨⟨415, errJson "Unsupported file format"⟩, some ("a.PDF", "x")⟩ :=
  uppercase_extension_unsupported_format ext0 ⟨true, "a.PDF", "x", none, 5, none⟩
    rfl (by decide) (by decide) (by decide)

/-- C8 (amended): a POST that reaches the keywords branch — file part
present, nonempty filename accepted by `allowed_file`, sanitized filename
matching one of the lowercase dispatch suffixes — with `type=keywords` and
no `selected_keyword` parameter returns 400 `{'error': 'Invalid keywords'}`. -/
theorem invalid_keywords_response (E : Ext) (r : UploadRequest) (t : String)
    (h1 : r.hasFilePart = true) (h2 : r.filename ≠ "")
    (h3 : allowed_file r.filename = true)
    (h4 : dispatch_extract E (secure_filename r.filename) r.content = some t)
    (h5 : r.qtype = some "keywords") (h6 : r.selected_keyword = none) :
    (upload_file E r).response = ⟨400, errJson "Invalid keywords"⟩ := by
  have hb : try_block E (secure_filename r.filename) r =
      .ok ⟨400, errJson "Invalid keywords"⟩ := by
    simp [try_block, h4, h5, h6]
  simp [upload_file, h1, h2, h3, hb]

/-- C8 counterexample: not EVERY `type=keywords` POST without
`selected_keyword` gets the "Invalid keywords" body — a POST of "a.exe"
with `type=keywords` and no `selected_keyword` is rejected earlier with
`{'error': 'Invalid file type'}`. -/
theorem invalid_keywords_not_universal :
    ¬ ((upload_file ext0 ⟨true, "a.exe", "x", some "keywords", 5, none⟩).response =
      ⟨400, errJson "Invalid keywords"⟩) := by decide

/-- C8 witness: a .txt upload with `type=keywords` and no
`selected_keyword`. -/
theorem invalid_keywords_response_witness :
    (upload_file ext0 ⟨true, "a.txt", "hello", some "keywords", 5, none⟩).response =
      ⟨400, errJson "Invalid keywords"⟩ :=
  invalid_keywords_response ext0 ⟨true, "a.txt", "hello", some "keywords", 5, none⟩
    "hello" rfl (by decide) (by decide) (by decide) rfl rfl

/-- C6: a `type=paragraph` upload whose extracted text has word count zero
or sentence count zero makes the reduction computation divide by zero; the
`ZeroDivisionError` is caught by the broad `except` and the request ends
with 400 whose body carries the raw exception text "division by zero". -/
theorem paragraph_zero_counts_division_by_zero (E : Ext) (r : UploadRequest)
    (t : String)
    (h1 : r.hasFilePart = true) (h2 : r.filename ≠ "")
    (h3 : allowed_file r.filename = true)
    (h4 : dispatch_extract E (secure_filename r.filename) r.content = some t)
    (h5 : r.qtype = some "paragraph")
    (h6 : (word_tokenize t).length = 0 ∨ (sent_tokenize t).length = 0) :
    (upload_file E r).response = ⟨400, errJson "division by zero"⟩ := by
  have hb : try_block E (secure_filename r.filename) r =
      .error "division by zero" := by
    by_cases hnw : (sent_tokenize t).length = 0
    · simp [try_block, h4, h5, percent_reduction, count_sentences_words, hnw]
    · have hns : (word_tokenize t).length = 0 := by tauto
      simp [try_block, h4, h5, percent_reduction, count_sentences_words, hnw, hns]
  simp [upload_file, h1, h2, h3, hb]

/-- C6 witness: an empty .txt upload with `type=paragraph` (its extracted
text has zero words and zero sentences). -/
theorem paragraph_zero_counts_division_by_zero_witness :
    (upload_file ext0 ⟨true, "a.txt", "", some "paragraph", 5, none⟩).response =
      ⟨400, errJson "division by zero"⟩ :=
  paragraph_zero_counts_division_by_zero ext0
    ⟨true, "a.txt", "", some "paragraph", 5, none⟩ ""
    rfl (by decide) (by decide) (by decide) rfl (by decide)

/-- `a` is ranked before `b` by `Counter.most_common`: strictly more
occurrences, or equally many and an earlier first occurrence (`idx`). -/
def RankedBefore (cnt idx : String → Nat) (a b : String) : Prop :=
  cnt b < cnt a ∨ (cnt a = cnt b ∧ idx a < idx b)

lemma perm_insert_by_count (cnt : String → Nat) (x : String) :
    ∀ l : List String, (insert_by_count cnt x l).Perm (x :: l)
  | [] => List.Perm.refl _
  | y :: ys => by
    simp only [insert_by_count]
    split
    · exact List.Perm.refl _
    · exact ((perm_insert_by_count cnt x ys).cons y).trans (List.Perm.swap x y ys)

lemma mem_insert_by_count {cnt : String → Nat} {x a : String} {l : List String} :
    a ∈ insert_by_count cnt x l ↔ a = x ∨ a ∈ l := by
  rw [(perm_insert_by_count cnt x l).mem_iff, List.mem_cons]

lemma pairwise_insert_by_count (cnt idx : String → Nat) (x : String)
    (l : List String) (h1 : l.Pairwise (RankedBefore cnt idx))
    (h2 : ∀ y ∈ l, cnt y = cnt x → idx y < idx x) :
    (insert_by_count cnt x l).Pairwise (RankedBefore cnt idx) := by
  induction l with
  | nil => simp [insert_by_count]
  | cons y ys ih =>
    rcases List.pairwise_cons.1 h1 with ⟨hy, hys⟩
    by_cases hc : cnt y < cnt x
    · simp only [insert_by_count, if_pos hc]
      refine List.pairwise_cons.2 ⟨?_, h1⟩
      intro z hz
      rcases List.mem_cons.1 hz with rfl | hz
      · exact Or.inl hc
      · rcases hy z hz with h | ⟨heq, _⟩
        · exact Or.inl (h.trans hc)
        · exact Or.inl (heq ▸ hc)
    · simp only [insert_by_count, if_neg hc]
      refine List.pairwise_cons.2
        ⟨?_, ih hys (fun z hz heq => h2 z (List.mem_cons_of_mem y hz) heq)⟩
      intro z hz
      rcases mem_insert_by_count.1 hz with rfl | hz
      · rcases Nat.lt_or_ge (cnt z) (cnt y) with hlt | hge
        · exact Or.inl hlt
        · have heq : cnt y = cnt z := by omega
          exact Or.inr ⟨heq, h2 y (List.mem_cons_self y ys) heq⟩
      · exact hy z hz

lemma perm_sort_aux (cnt : String → Nat) :
    ∀ (l acc : List String),
      (l.foldl (fun acc x => insert_by_count cnt x acc) acc).Perm (l ++ acc) := by
  intro l
  induction l with
  | nil => intro acc; simp
  | cons x xs ih =>
    intro acc
    have h1 := ih (insert_by_count cnt x acc)
    have h2 : (xs ++ insert_by_count cnt x acc).Perm (xs ++ x :: acc) :=
      List.Perm.append_left xs (perm_insert_by_count cnt x acc)
    have h3 : (xs ++ x :: acc).Perm (x :: (xs ++ acc)) := List.perm_middle
    simpa using (h1.trans (h2.trans h3))

lemma pairwise_sort_aux (cnt idx : String → Nat) :
    ∀ (l acc : List String), acc.Pairwise (RankedBefore cnt idx) →
      (∀ a ∈ acc, ∀ b ∈ l, idx a < idx b) →
      l.Pairwise (fun a b => idx a < idx b) →
      (l.foldl (fun acc x => insert_by_count cnt x acc) acc).Pairwise
        (RankedBefore cnt idx) := by
  intro l
  induction l with
  | nil => intro acc h1 _ _; simpa using h1
  | cons x xs ih =>
    intro acc h1 h2 hl
    rcases List.pairwise_cons.1 hl with ⟨hx, hxs⟩
    simp only [List.foldl_cons]
    apply ih
    · refine pairwise_insert_by_count cnt idx x acc h1 ?_
      intro y hy _
      exact h2 y hy x (List.mem_cons_self x xs)
    · intro a ha b hb
      rcases mem_insert_by_count.1 ha with rfl | ha
      · exact hx b hb
      · exact h2 a ha b (List.mem_cons_of_mem x hb)
    · exact hxs

lemma mem_counter_keys : ∀ (l seen : List String) (a : String),
    a ∈ counter_keys l seen ↔ a ∈ l ∧ a ∉ seen := by
  intro l
  induction l with
  | nil => intro seen a; simp [counter_keys]
  | cons x xs ih =>
    intro seen a
    by_cases hx : x ∈ seen
    · rw [counter_keys, if_pos hx, ih]
      constructor
      · rintro ⟨ha, hs⟩; exact ⟨List.mem_cons_of_mem x ha, hs⟩
      · rintro ⟨ha, hs⟩
        rcases List.mem_cons.1 ha with rfl | ha
        · exact absurd hx hs
        · exact ⟨ha, hs⟩
    · rw [counter_keys, if_neg hx]
      constructor
      · intro h
        rcases List.mem_cons.1 h with rfl | h
        · exact ⟨List.mem_cons_self _ _, hx⟩
        · rcases (ih _ _).1 h with ⟨ha, hs⟩
          exact ⟨List.mem_cons_of_mem x ha,
            fun hseen => hs (List.mem_cons_of_mem x hseen)⟩
      · rintro ⟨ha, hs⟩
        rcases List.mem_cons.1 ha with rfl | ha
        · exact List.mem_cons_self _ _
        · by_cases hax : a = x
          · subst hax; exact List.mem_cons_self _ _
          · refine List.mem_cons_of_mem x ((ih _ _).2 ⟨ha, ?_⟩)
            intro hmem
            rcases List.mem_cons.1 hmem with h | h
            · exact hax h
            · exact hs h

lemma nodup_counter_keys : ∀ (l seen : List String), (counter_keys l seen).Nodup := by
  intro l
  induction l with
  | nil => intro seen; simp [counter_keys]
  | cons x xs ih =>
    intro seen
    by_cases hx : x ∈ seen
    · rw [counter_keys, if_pos hx]; exact ih seen
    · rw [counter_keys, if_neg hx]
      refine List.nodup_cons.2 ⟨?_, ih (x :: seen)⟩
      intro hmem
      exact ((mem_counter_keys xs (x :: seen) x).1 hmem).2 (List.mem_cons_self x seen)

lemma pairwise_idx_counter_keys : ∀ (l seen : List String),
    (counter_keys l seen).Pairwise (fun a b => l.indexOf a < l.indexOf b) := by
  intro l
  induction l with
  | nil => intro seen; simp [counter_keys]
  | cons x xs ih =>
    intro seen
    by_cases hx : x ∈ seen
    · rw [counter_keys, if_pos hx]
      refine (ih seen).imp_of_mem ?_
      intro a b ha hb hab
      have hax : x ≠ a := by
        rintro rfl
        exact ((mem_counter_keys xs seen x).1 ha).2 hx
      have hbx : x ≠ b := by
        rintro rfl
        exact ((mem_counter_keys xs seen x).1 hb).2 hx
      rw [List.indexOf_cons_ne xs hax, List.indexOf_cons_ne xs hbx]
      omega
    · rw [counter_keys, if_neg hx]
      refine List.pairwise_cons.2 ⟨?_, ?_⟩
      · intro b hb
        have hbx : x ≠ b := by
          rintro rfl
          exact ((mem_counter_keys xs (x :: seen) x).1 hb).2
            (List.mem_cons_self x seen)
        rw [List.indexOf_cons_self, List.indexOf_cons_ne xs hbx]
        omega
      · refine (ih (x :: seen)).imp_of_mem ?_
        intro a b ha hb hab
        have hax : x ≠ a := by
          rintro rfl
          exact ((mem_counter_keys xs (x :: seen) x).1 ha).2
            (List.mem_cons_self x seen)
        have hbx : x ≠ b := by
          rintro rfl
          exact ((mem_counter_keys xs (x :: seen) x).1 hb).2
            (List.mem_cons_self x seen)
        rw [List.indexOf_cons_ne xs hax, List.indexOf_cons_ne xs hbx]
        omega

lemma extract_keywords_take (E : Ext) (text : String) (n : Nat) :
    extract_keywords E text n =
      (sort_by_count (fun k => (qualifying_keywords E text).count k)
        (counter_keys (qualifying_keywords E text) [])).take n := by
  simp [extract_keywords, most_common, List.map_map, Function.comp_def]

/-- C5: `extract_keywords` returns at most `num_keywords` distinct
qualifying surface forms — exactly `min num_keywords (number of distinct
qualifying tokens)` of them, so fewer when fewer exist and none when the
text has no token tagged NOUN/ADJ/VERB — every returned keyword is a token
of the text tagged noun, adjective or verb, and the result is ordered by
raw frequency descending with ties broken by first occurrence in the
qualifying-token stream. -/
theorem extract_keywords_spec (E : Ext) (text : String) (n : Nat) :
    (extract_keywords E text n).length =
        min n (counter_keys (qualifying_keywords E text) []).length ∧
    (extract_keywords E text n).Nodup ∧
    (∀ k ∈ extract_keywords E text n,
        ∃ p, (k, p) ∈ E.nlp text ∧ (p = "NOUN" ∨ p = "ADJ" ∨ p = "VERB")) ∧
    (extract_keywords E text n).Pairwise
        (RankedBefore (fun k => (qualifying_keywords E text).count k)
          (fun k => (qualifying_keywords E text).indexOf k)) ∧
    (qualifying_keywords E text = [] → extract_keywords E text n = []) := by
  have heq := extract_keywords_take E text n
  have hperm :
      (sort_by_count (fun k => (qualifying_keywords E text).count k)
        (counter_keys (qualifying_keywords E text) [])).Perm
        (counter_keys (qualifying_keywords E text) []) := by
    simpa [sort_by_count] using
      perm_sort_aux (fun k => (qualifying_keywords E text).count k)
        (counter_keys (qualifying_keywords E text) []) []
  refine ⟨?_, ?_, ?_, ?_, ?_⟩
  · rw [heq, List.length_take, hperm.length_eq]
  · rw [heq]
    exact (hperm.symm.nodup
      (nodup_counter_keys (qualifying_keywords E text) [])).sublist
      (List.take_sublist n _)
  · intro k hk
    rw [heq] at hk
    have hk2 := (List.take_sublist n _).subset hk
    have hk3 := hperm.subset hk2
    have hk4 : k ∈ qualifying_keywords E text :=
      ((mem_counter_keys (qualifying_keywords E text) [] k).1 hk3).1
    rcases List.mem_map.1 hk4 with ⟨tok, htok, rfl⟩
    rcases List.mem_filter.1 htok with ⟨hdoc, hcond⟩
    refine ⟨tok.2, ?_, ?_⟩
    · rw [Prod.mk.eta]; exact hdoc
    · have h5 : (tok.2 = "NOUN" ∨ tok.2 = "ADJ") ∨ tok.2 = "VERB" := by
        simpa using hcond
      tauto
  · rw [heq]
    refine List.Pairwise.sublist (List.take_sublist n _) ?_
    rw [sort_by_count]
    exact pairwise_sort_aux _ _ _ [] List.Pairwise.nil (by simp)
      (pairwise_idx_counter_keys (qualifying_keywords E text) [])
  · intro hempty
    rw [heq, hempty]
    simp [sort_by_count, counter_keys]

/-- External state whose tagger tags "cat" (twice) as NOUN, "runs" as VERB
and "the" as DET, used to evaluate `extract_keywords` concretely. -/
def ext_tag0 : Ext :=
  { ext0 with nlp := fun _ => [("cat", "NOUN"), ("runs", "VERB"), ("the", "DET"), ("cat", "NOUN")] }

/-- C5 witness: on the concrete tagged text the specification is satisfied
and the extracted keywords are ["cat", "runs"] (counts 2 and 1, "the"
filtered out as a determiner). -/
theorem extract_keywords_spec_witness :
    ((extract_keywords ext_tag0 "x" 2).length =
        min 2 (counter_keys (qualifying_keywords ext_tag0 "x") []).length ∧
     (extract_keywords ext_tag0 "x" 2).Nodup ∧
     (∀ k ∈ extract_keywords ext_tag0 "x" 2,
        ∃ p, (k, p) ∈ ext_tag0.nlp "x" ∧ (p = "NOUN" ∨ p = "ADJ" ∨ p = "VERB")) ∧
     (extract_keywords ext_tag0 "x" 2).Pairwise
        (RankedBefore (fun k => (qualifying_keywords ext_tag0 "x").count k)
          (fun k => (qualifying_keywords ext_tag0 "x").indexOf k)) ∧
     (qualifying_keywords ext_tag0 "x" = [] → extract_keywords ext_tag0 "x" 2 = [])) ∧
    extract_keywords ext_tag0 "x" 2 = ["cat", "runs"] :=
  ⟨extract_keywords_spec ext_tag0 "x" 2, by decide⟩

end FlaskApp
